import Mathlib

/-!
Verification of the maya-mock scene-graph core against its specification.

The development shallowly embeds the relevant Python sources:

* `src/src/maya_mock/base/naming.py` — name conformation, name validation
  and the pattern-to-regex engine (`conform_node_name`, `is_valid_node_name`,
  `pattern_to_regex`);
* `src/src/maya_mock/cmds/session.py` and
  `src/python/maya_mock/cmds/session.py` — the `maya.cmds` adaptor
  (`addAttr`, `connectAttr`, `disconnectAttr`, `select`).

Pure functions become Lean functions; methods that mutate the session become
state-passing functions `MockedSessionState → ... → Except CmdsError
MockedSessionState`, where an `Except.error` result models a raised Python
exception: every embedded method raises before mutating, so an error result
leaves the session unchanged.

The base session (`maya_mock/base/session.py`) is not part of the sources;
where one of its operations is needed it is modelled from the specification
and marked `Modelled from the spec:` in its doc comment.
-/

namespace MayaMock

/-! ## Pattern engine (`src/src/maya_mock/base/naming.py`, `pattern_to_regex`)

`pattern_to_regex` builds a regex string from a dagpath pattern:

* `pattern is None` returns `".*"`, which matches every path;
* `'*'` is replaced by `[\w]*` (zero or more word characters);
* `'|'` is escaped to `\|`, i.e. a literal pipe;
* a pattern that `startswith("|")` would be prefixed with `^` — but this
  test runs *after* the escape, when every pipe of the pattern has become
  `'\|'`, so the escaped pattern starts with `'\'` (or with an unescaped
  first character that is not a pipe) and the branch is dead code;
* consequently every pattern — with or without a leading separator — is
  prefixed with `(^|.*\|)` (the match may start at the beginning of the
  path or right after any pipe);
* `$` is appended (the line appending `($|\|.*)` instead is commented out in
  the source), so the body must reach the end of the path.

We embed the *denotation* of the compiled regex applied to a path, for
patterns over the dagpath alphabet (word characters, `':'`, `'|'`, `'*'`),
in which every character other than `'*'` and `'|'` is a regex literal.
A pattern character is either a literal or the `[\w]*` fragment: -/

/-- A word character in the sense of the regex class `\w` restricted to the
ASCII dagpath alphabet: letter, digit or underscore. -/
def isWordChar (c : Char) : Bool :=
  c.isAlpha || c.isDigit || c == '_'

/-- One token of the compiled regex body: a literal character, or the
`[\w]*` fragment that `pattern_to_regex` substitutes for `'*'`. -/
inductive RTok where
  | lit : Char → RTok
  | star : RTok
deriving DecidableEq, Repr

/-- Tokenisation of a pattern, mirroring the two `replace` calls of
`pattern_to_regex`: `'*'` becomes the `[\w]*` fragment, every other
character (the escaped `'|'` included) is a literal. -/
def patternToks (p : List Char) : List RTok :=
  p.map (fun c => if c == '*' then RTok.star else RTok.lit c)

/-- The suffixes of a character list reachable by consuming a (possibly
empty) prefix of word characters: the splits the `[\w]*` fragment can
produce. -/
def wordSuffixes : List Char → List (List Char)
  | [] => [[]]
  | x :: xs => (x :: xs) :: (if isWordChar x then wordSuffixes xs else [])

/-- Whether the regex body (the token list) matches the whole character
list: a literal consumes exactly its character, `[\w]*` consumes zero or
more word characters (existential semantics over its possible splits). -/
def bodyMatch : List RTok → List Char → Bool
  | [], s => s.isEmpty
  | RTok.lit c :: ts, s =>
      match s with
      | [] => false
      | x :: xs => c == x && bodyMatch ts xs
  | RTok.star :: ts, s => (wordSuffixes s).any (fun r => bodyMatch ts r)

/-- Whether the body matches starting right after some `'|'` of the path:
the `.*\|` half of the `(^|.*\|)` prefix of a relative pattern's regex. -/
def relMatchAux (ts : List RTok) : List Char → Bool
  | [] => false
  | c :: rest => (c == '|' && bodyMatch ts rest) || relMatchAux ts rest

/-- Denotation of `pattern_to_regex pattern` applied to `path`:

* `none` compiles to `".*"`, matching everything;
* every other pattern compiles to `(^|.*\|)body$`: the body must match a
  suffix of the path starting at the beginning or right after a `'|'`.

The source's `^`-anchoring branch for absolute patterns never fires: the
`pattern.startswith("|")` test is evaluated after `'|'` has been escaped to
`'\|'`, so the escaped pattern never starts with `'|'` and the `else`
branch prepending `(^|.*\|)` is taken for every pattern. -/
def patternMatches (pattern : Option String) (path : String) : Bool :=
  match pattern with
  | none => true
  | some p =>
      let ts := patternToks p.data
      bodyMatch ts path.data || relMatchAux ts path.data

/-! ## `conform_node_name` and `is_valid_node_name`
(`src/src/maya_mock/base/naming.py`) -/

/-- Embedding of `conform_node_name` from `naming.py`:
`_REGEX_INVALID_NODE_NAME_CHARS.sub("", name)`
with the compiled pattern `^([0-9])|(?!A-Za-z0-9:_)`.

The second alternative is a zero-width *negative lookahead for the literal
text* `A-Za-z0-9:_` (not a character class), so whenever it matches it
matches the empty string, and substituting an empty match by the empty
replacement leaves the input untouched.  The only alternative that removes
characters is `^([0-9])`, anchored at position 0, which consumes exactly one
leading decimal digit; `re.sub` then continues past position 0 where `^` can
no longer match.  The substitution therefore removes one leading digit when
there is one and changes nothing else. -/
def conform_node_name (name : String) : String :=
  match name.data with
  | [] => name
  | c :: rest => if c.isDigit then String.mk rest else name

/-- Embedding of `is_valid_node_name` from `naming.py`:
`return name and name not in BLACKLISTED_NODE_NAMES`.

Python truthiness of the string operand becomes the non-emptiness test.
`BLACKLISTED_NODE_NAMES` lives in `maya_mock/base/constants.py`, which is not
among the sources; per the spec it is the fixed set of reserved names, so we
keep it as an explicit parameter.  Note the function checks *only* emptiness
and the blacklist: despite its doc comment ("Cannot start with a number") it
performs no leading-digit check. -/
def is_valid_node_name (blacklist : List String) (name : String) : Bool :=
  !(name == "") && !(blacklist.contains name)

/-! ## Session model

The `maya.cmds` adaptor (`MockedCmdsSession`) mutates a `MockedSession`
(`maya_mock/base/session.py`, not among the sources).  We embed the session
state observable by the adaptor — nodes, ports, connections, selection —
and model the base-session operations the adaptor calls from the spec. -/

/-- Tagged scalar value for port values (spec §9: a closed variant
`Number | Bool | String`). -/
inductive MValue where
  | number : Int → MValue
  | boolean : Bool → MValue
  | str : String → MValue
deriving DecidableEq, Repr

/-- A node as the cmds layer observes it: name, type tag, and the fully
qualified dagpath the base session's node store maintains for it. -/
structure MockedNode where
  name : String
  typ : String
  dagpath : String
deriving DecidableEq, Repr

/-- A port (attribute) owned by a node (spec §3). -/
structure MockedPort where
  owner : MockedNode
  name : String
  short_name : Option String
  nice_name : Option String
  typ : String
  value : MValue
  user_defined : Bool
deriving DecidableEq, Repr

/-- The session state aggregated by the façade: node store, port store,
connection graph and the current selection. -/
structure MockedSessionState where
  nodes : List MockedNode
  ports : List MockedPort
  connections : List (MockedPort × MockedPort)
  selection : List MockedNode
deriving DecidableEq, Repr

/-- The error kinds the embedded commands raise (spec §7); each stands for
a `RuntimeError` of the Python source. -/
inductive CmdsError where
  | missingAttributeName
  | duplicateConnection
  | missingConnection
  | nodeNotFound
  | nameCollision
deriving DecidableEq, Repr

/-- Modelled from the spec: `MockedSession.get_connection_by_ports`
(§4.4), which is not among the sources — "exact ordered-pair lookup;
returns none if absent". -/
def get_connection_by_ports (s : MockedSessionState) (src dst : MockedPort) :
    Option (MockedPort × MockedPort) :=
  s.connections.find? (fun c => c.1 == src && c.2 == dst)

/-- Modelled from the spec: `MockedSession.create_connection` (§4.4),
which is not among the sources — "records the edge".  The duplicate check
happens in the cmds layer before this call. -/
def create_connection (s : MockedSessionState) (src dst : MockedPort) :
    MockedSessionState :=
  { s with connections := s.connections ++ [(src, dst)] }

/-- Modelled from the spec: `MockedSession.remove_connection` (§4.4),
which is not among the sources — "removes a specific edge". -/
def remove_connection (s : MockedSessionState) (c : MockedPort × MockedPort) :
    MockedSessionState :=
  { s with connections := s.connections.erase c }

/-- Modelled from the spec: `MockedSession.iter_node_by_match` (§4.2),
which is not among the sources — all nodes whose dagpath the compiled
pattern matches, in the store's insertion order. -/
def iter_node_by_match (s : MockedSessionState) (pattern : Option String) :
    List MockedNode :=
  s.nodes.filter (fun n => patternMatches pattern n.dagpath)

/-- Modelled from the spec: `MockedSession.get_node_by_match` (§4.2),
which is not among the sources — a deterministic choice among the
matches; we take the first in iteration order. -/
def get_node_by_match (s : MockedSessionState) (pattern : String) :
    Option MockedNode :=
  (iter_node_by_match s (some pattern)).head?

/-- The addressable names of a port: its name plus its short name when
present. -/
def portNames (p : MockedPort) : List String :=
  p.name :: p.short_name.toList

/-- Modelled from the spec: `MockedSession.create_port` (§4.3), which is
not among the sources — "fails with a name-collision error if `name` or
`short_name` already exists on `node`"; otherwise the new port is
appended, marked `user_defined`. -/
def create_port (s : MockedSessionState) (node : MockedNode) (name : String)
    (port_type : String) (short_name : Option String) (value : MValue)
    (nice_name : Option String) : Except CmdsError MockedSessionState :=
  if s.ports.any (fun p => p.owner == node &&
      ((portNames p).contains name ||
        (match short_name with
         | some sn => (portNames p).contains sn
         | none => false))) then
    .error .nameCollision
  else
    .ok { s with ports := s.ports ++
      [{ owner := node, name := name, short_name := short_name,
         nice_name := nice_name, typ := port_type, value := value,
         user_defined := true }] }

/-- Truthiness of an optional string, the way Python evaluates `not x`
for `x` an optional string flag: `None` and the empty string are falsy. -/
def truthy : Option String → Bool
  | none => false
  | some s => !(s == "")

/-! ## The embedded `maya.cmds` commands
(`src/src/maya_mock/cmds/session.py`; `connectAttr`/`disconnectAttr` are
behaviourally identical in `src/python/maya_mock/cmds/session.py`, and the
two `select` variants are embedded separately) -/

/-- Embedding of `MockedCmdsSession.connectAttr` at the port level (after
`_conform_connection_ports` has resolved the two string addresses to
ports): if the ordered pair is already connected the call warns (a
log-sink no-op) and raises `RuntimeError("Maya command error")`, embedded
as `CmdsError.duplicateConnection`; otherwise it records the
connection. -/
def connectAttr (s : MockedSessionState) (src dst : MockedPort) :
    Except CmdsError MockedSessionState :=
  match get_connection_by_ports s src dst with
  | some _ => .error .duplicateConnection
  | none => .ok (create_connection s src dst)

/-- Embedding of `MockedCmdsSession.disconnectAttr` at the port level:
raises (`CmdsError.missingConnection`, for `RuntimeError("There is no
connection from ... to disconnect")`) when the ordered pair has no
connection, otherwise removes that edge. -/
def disconnectAttr (s : MockedSessionState) (src dst : MockedPort) :
    Except CmdsError MockedSessionState :=
  match get_connection_by_ports s src dst with
  | none => .error .missingConnection
  | some c => .ok (remove_connection s c)

/-- Embedding of `MockedCmdsSession.addAttr`
(`src/src/maya_mock/cmds/session.py`): without a truthy long or short name
it raises `RuntimeError("New attribute needs either a long (-ln) or short
(-sn) attribute name.")`, embedded as `CmdsError.missingAttributeName`,
before touching the session; otherwise the name is `longName or
shortName`, the port type `attributeType or dataType or "float"`, and a
port is created on each matched object in turn. -/
def addAttr (s : MockedSessionState) (objects : List String)
    (attributeType dataType : Option String) (defaultValue : MValue)
    (longName niceName shortName : Option String) :
    Except CmdsError MockedSessionState :=
  if !(truthy longName) && !(truthy shortName) then
    .error .missingAttributeName
  else
    let name := if truthy longName then longName.getD "" else shortName.getD ""
    let port_type :=
      if truthy attributeType then attributeType.getD ""
      else if truthy dataType then dataType.getD "" else "float"
    objects.foldlM
      (fun st obj =>
        match get_node_by_match st obj with
        | some node =>
            create_port st node name port_type shortName defaultValue niceName
        | none => .error .nodeNotFound)
      s

/-- Embedding of `MockedCmdsSession.select` from
`src/src/maya_mock/cmds/session.py`:
`self.session.selection = [node for node in self.session.nodes if
node.name in names]`. -/
def select (s : MockedSessionState) (names : List String) :
    MockedSessionState :=
  { s with selection := s.nodes.filter (fun n => names.contains n.name) }

/-- Embedding of `MockedCmdsSession.select` from
`src/python/maya_mock/cmds/session.py`: its local `_find_node(node)`
iterates every session node and tests `n.name in names` — it ignores its
own argument — and the selection is
`[y for name in names for y in _find_node(name)]`, so the inner list is
produced once per element of `names`. -/
def select_python (s : MockedSessionState) (names : List String) :
    MockedSessionState :=
  { s with selection :=
      names.flatMap (fun _name => s.nodes.filter (fun n => names.contains n.name)) }

/-! ### Concrete sample data for witnesses and counterexamples -/

/-- A sample node. -/
def nodeA : MockedNode :=
  { name := "a", typ := "transform", dagpath := "|a" }

/-- A sample port on `nodeA`. -/
def portA : MockedPort :=
  { owner := nodeA, name := "translateX", short_name := some "tx",
    nice_name := none, typ := "float", value := .number 0,
    user_defined := false }

/-- A second sample port on `nodeA`. -/
def portB : MockedPort :=
  { owner := nodeA, name := "translateY", short_name := some "ty",
    nice_name := none, typ := "float", value := .number 0,
    user_defined := false }

/-- A sample session with one node, two ports and no connection. -/
def sampleSession0 : MockedSessionState :=
  { nodes := [nodeA], ports := [portA, portB], connections := [],
    selection := [] }

/-- The sample session with `portA → portB` connected. -/
def sampleSession1 : MockedSessionState :=
  { sampleSession0 with connections := [(portA, portB)] }

/-! ## Sanity checks on the embedded definitions -/

example : patternMatches (some "name*") "name" = true := by decide
example : patternMatches (some "name*") "names" = true := by decide
example : patternMatches (some "name*") "name|x" = false := by decide
example : patternMatches (some "a|b") "|r|a|b" = true := by decide
example : patternMatches (some "a") "a|b" = false := by decide
example : patternMatches (some "|a|b") "|a|b" = true := by decide
example : patternMatches (some "|a|b") "|x|a|b" = false := by decide
example : patternMatches (some "|a|b") "x||a|b" = true := by decide
example : patternMatches none "anything|at|all" = true := by decide
example : conform_node_name "1abc" = "abc" := by decide
example : conform_node_name "12ab" = "2ab" := by decide
example : conform_node_name "a|b" = "a|b" := by decide
example : conform_node_name "a;/4" = "a;/4" := by decide
example : is_valid_node_name ["time1"] "" = false := by decide
example : is_valid_node_name ["time1"] "time1" = false := by decide
example : is_valid_node_name ["time1"] "1abc" = true := by decide

/-! ## Characterisation lemmas for the pattern engine -/

/-- Membership in `wordSuffixes`: exactly the suffixes obtained by removing
a word-character prefix. -/
theorem mem_wordSuffixes {s r : List Char} :
    r ∈ wordSuffixes s ↔ ∃ w, s = w ++ r ∧ ∀ c ∈ w, isWordChar c = true := by
  induction s with
  | nil =>
      simp only [wordSuffixes, List.mem_singleton]
      constructor
      · rintro rfl
        exact ⟨[], rfl, by simp⟩
      · rintro ⟨w, h, -⟩
        rcases List.append_eq_nil.mp h.symm with ⟨-, rfl⟩
        rfl
  | cons x xs ih =>
      simp only [wordSuffixes, List.mem_cons]
      constructor
      · rintro (rfl | hr)
        · exact ⟨[], rfl, by simp⟩
        · by_cases hx : isWordChar x
          · rw [if_pos hx] at hr
            obtain ⟨w, hw, hall⟩ := ih.mp hr
            refine ⟨x :: w, by rw [hw]; rfl, ?_⟩
            intro c hc
            rcases List.mem_cons.mp hc with rfl | hc
            · exact hx
            · exact hall c hc
          · rw [if_neg hx] at hr
            simp at hr
      · rintro ⟨w, hw, hall⟩
        cases w with
        | nil =>
            left
            simpa using hw.symm
        | cons a w' =>
            simp only [List.cons_append] at hw
            injection hw with h1 hxs
            right
            have ha : isWordChar x = true := by
              rw [h1]
              exact hall a (List.mem_cons_self a w')
            rw [if_pos ha]
            exact ih.mpr ⟨w', hxs, fun c hc => hall c (List.mem_cons_of_mem a hc)⟩

/-- The `[\w]*` fragment matches by splitting off a word-character prefix:
`bodyMatch` on a leading `star` succeeds iff some word-character prefix can
be consumed so that the remaining tokens match the rest. -/
theorem bodyMatch_star_iff (ts : List RTok) (s : List Char) :
    bodyMatch (RTok.star :: ts) s = true ↔
      ∃ w r, s = w ++ r ∧ (∀ c ∈ w, isWordChar c = true) ∧ bodyMatch ts r = true := by
  simp only [bodyMatch, List.any_eq_true]
  constructor
  · rintro ⟨r, hr, hb⟩
    obtain ⟨w, rfl, hall⟩ := mem_wordSuffixes.mp hr
    exact ⟨w, r, rfl, hall, hb⟩
  · rintro ⟨w, r, rfl, hall, hb⟩
    exact ⟨r, mem_wordSuffixes.mpr ⟨w, rfl, hall⟩, hb⟩

/-- Characterisation of `relMatchAux`: the body matches right after some
pipe of the path. -/
theorem relMatchAux_iff (ts : List RTok) (s : List Char) :
    relMatchAux ts s = true ↔
      ∃ q suf, s = q ++ '|' :: suf ∧ bodyMatch ts suf = true := by
  induction s with
  | nil =>
      simp only [relMatchAux]
      constructor
      · intro h
        cases h
      · rintro ⟨q, suf, h, -⟩
        exact absurd h.symm (by simp)
  | cons c rest ih =>
      simp only [relMatchAux, Bool.or_eq_true, Bool.and_eq_true, beq_iff_eq, ih]
      constructor
      · rintro (⟨rfl, hb⟩ | ⟨q, suf, rfl, hb⟩)
        · exact ⟨[], rest, rfl, hb⟩
        · exact ⟨c :: q, suf, rfl, hb⟩
      · rintro ⟨q, suf, hq, hb⟩
        cases q with
        | nil =>
            simp only [List.nil_append] at hq
            injection hq with h1 h2
            subst h1
            subst h2
            exact Or.inl ⟨rfl, hb⟩
        | cons a q' =>
            simp only [List.cons_append] at hq
            injection hq with h1 hrest
            subst h1
            exact Or.inr ⟨q', suf, hrest, hb⟩

/-! ## Claim theorems about the pattern engine and naming helpers -/

/-- C1 (counterexample): the claim states that the wildcard requires at
least one word character, so that the pattern `"name*"` would not match the
bare segment `"name"`.  On the code, `'*'` compiles to `[\w]*` (zero or
more), and `"name*"` does match `"name"`. -/
theorem name_star_matches_bare_name :
    patternMatches (some "name*") "name" = true := by decide

/-- C1 (amended): in the compiled matcher the wildcard `'*'` stands for
*zero* or more word characters and never crosses a hierarchy separator
(`'|'` is not a word character, so the consumed block contains no
separator); in particular `"name*"` does match the bare segment
`"name"`. -/
theorem wildcard_zero_or_more_word_chars :
    (∀ (ts : List RTok) (s : List Char),
        bodyMatch (RTok.star :: ts) s = true ↔
          ∃ w r, s = w ++ r ∧ (∀ c ∈ w, isWordChar c = true) ∧
            bodyMatch ts r = true) ∧
      isWordChar '|' = false ∧
      patternMatches (some "name*") "name" = true :=
  ⟨bodyMatch_star_iff, by decide, by decide⟩

/-- C1 (witness): instantiation of the amended claim at the token list
`[star]` and the string `"ab"`, matched by consuming the word block
`"ab"`. -/
theorem wildcard_zero_or_more_word_chars_witness :
    bodyMatch [RTok.star] "ab".data = true :=
  (wildcard_zero_or_more_word_chars.1 [] "ab".data).mpr
    ⟨"ab".data, [], by simp, by decide, by decide⟩

/-- C3: a relative pattern (no leading separator) matches a path exactly
when its compiled body matches a *whole suffix* of the path that starts at
a segment boundary — the start of the path or just after a `'|'` — and
therefore terminates at the end of the string, never inside a segment. -/
theorem relative_pattern_matches_suffix_iff (p path : String)
    ( _h : p.data.head? ≠ some '|') :
    patternMatches (some p) path = true ↔
      ∃ pre suf, path.data = pre ++ suf ∧
        (pre = [] ∨ ∃ q, pre = q ++ ['|']) ∧
        bodyMatch (patternToks p.data) suf = true := by
  have hdef : patternMatches (some p) path =
      (bodyMatch (patternToks p.data) path.data ||
        relMatchAux (patternToks p.data) path.data) := rfl
  rw [hdef, Bool.or_eq_true, relMatchAux_iff]
  constructor
  · rintro (hb | ⟨q, suf, hs, hb⟩)
    · exact ⟨[], path.data, rfl, Or.inl rfl, hb⟩
    · exact ⟨q ++ ['|'], suf, by simp [hs], Or.inr ⟨q, rfl⟩, hb⟩
  · rintro ⟨pre, suf, hs, hpre, hb⟩
    rcases hpre with rfl | ⟨q, rfl⟩
    · exact Or.inl (by simpa [hs] using hb)
    · exact Or.inr ⟨q, suf, by simpa using hs, hb⟩

/-- C3 (witness): the relative pattern `"a"` against the path `"x|a"`,
which it matches as the suffix after the separator. -/
theorem relative_pattern_matches_suffix_iff_witness :
    patternMatches (some "a") "x|a" = true ↔
      ∃ pre suf, "x|a".data = pre ++ suf ∧
        (pre = [] ∨ ∃ q, pre = q ++ ['|']) ∧
        bodyMatch (patternToks "a".data) suf = true :=
  relative_pattern_matches_suffix_iff "a" "x|a" (by decide)

/-- C4 (code bug, evaluated at the failing input): the claim — backed by
the source's own docstring example for `'|a|b'`, which shows the anchored
regex `^\|a\|b...`, and by the `^`-prepending branch in the code — says an
absolute pattern is anchored at the start of the path.  But
`pattern_to_regex` escapes `'|'` to `'\|'` *before* testing
`pattern.startswith("|")`, so that branch is dead code and `"|a|b"` in
fact compiles to `(^|.*\|)\|a\|b$`, which matches the path `"x||a|b"`: the
match begins after the separator of `"x|"`, not at the start of the path.
The claim's two concrete instances do hold — `"|a|b"` matches `"|a|b"` and
not `"|x|a|b"` — but the matcher is not anchored. -/
theorem absolute_pattern_not_anchored :
    patternMatches (some "|a|b") "x||a|b" = true ∧
      patternMatches (some "|a|b") "|a|b" = true ∧
      patternMatches (some "|a|b") "|x|a|b" = false :=
  ⟨by decide, by decide, by decide⟩

/-- C9: `conform_node_name` removes at most one single leading digit and
changes nothing else: every result is the input itself or the input minus
one leading digit; `"a|b"` (structural characters included) is returned
verbatim; and an input starting with two digits still starts with a digit
after conforming. -/
theorem conform_node_name_drops_one_leading_digit :
    (∀ s : String, conform_node_name s = s ∨
        ∃ d : Char, d.isDigit = true ∧
          s.data = d :: (conform_node_name s).data) ∧
      conform_node_name "a|b" = "a|b" ∧
      (∀ (d₁ d₂ : Char) (t : List Char), d₁.isDigit = true → d₂.isDigit = true →
        (conform_node_name (String.mk (d₁ :: d₂ :: t))).data.head? = some d₂) := by
  refine ⟨fun s => ?_, by decide, fun d₁ d₂ t h₁ _ => ?_⟩
  · match hd : s.data with
    | [] => exact Or.inl (by simp [conform_node_name, hd])
    | c :: rest =>
        by_cases hc : c.isDigit
        · refine Or.inr ⟨c, hc, ?_⟩
          simp [conform_node_name, hd, hc]
        · exact Or.inl (by simp [conform_node_name, hd, hc])
  · simp [conform_node_name, h₁]

/-- C9 (witness): instantiation at the two-digit input `"59a"`, whose
conformed form still starts with the digit `'9'`. -/
theorem conform_node_name_drops_one_leading_digit_witness :
    (conform_node_name (String.mk ['5', '9', 'a'])).data.head? = some '9' :=
  conform_node_name_drops_one_leading_digit.2.2 '5' '9' ['a']
    (by decide) (by decide)

/-- C2 (code evaluated at the failing input): `is_valid_node_name` accepts
any non-empty, non-blacklisted name even when it starts with a decimal
digit — the leading-digit rule announced in its own doc comment and in the
spec is never checked.  `"1abc"` starts with a digit yet is reported
valid. -/
theorem is_valid_node_name_accepts_leading_digit :
    ∀ blacklist : List String, "1abc" ∉ blacklist →
      is_valid_node_name blacklist "1abc" = true := by
  intro blacklist h
  simp only [is_valid_node_name, Bool.and_eq_true, Bool.not_eq_true']
  exact ⟨by decide, by simpa using h⟩

/-- C2 (witness): with a concrete reserved-name list, `"1abc"` is accepted
by the validity check. -/
theorem is_valid_node_name_accepts_leading_digit_witness :
    is_valid_node_name ["time1", "persp"] "1abc" = true :=
  is_valid_node_name_accepts_leading_digit ["time1", "persp"] (by decide)

/-! ## Claim theorems about the session commands -/

/-- The connection lookup returns `none` exactly when the ordered pair is
absent from the connection store. -/
theorem get_connection_by_ports_eq_none (s : MockedSessionState)
    (src dst : MockedPort) :
    get_connection_by_ports s src dst = none ↔
      (src, dst) ∉ s.connections := by
  simp only [get_connection_by_ports, List.find?_eq_none]
  constructor
  · intro h hmem
    exact absurd (by simp) (h _ hmem)
  · intro h x hx hp
    simp only [Bool.and_eq_true, beq_iff_eq] at hp
    apply h
    have hx' : x = (src, dst) := by
      obtain ⟨x1, x2⟩ := x
      obtain ⟨h1, h2⟩ := hp
      simp_all
    rwa [hx'] at hx

/-- The connection lookup succeeds when the ordered pair is present. -/
theorem get_connection_by_ports_isSome (s : MockedSessionState)
    (src dst : MockedPort) (h : (src, dst) ∈ s.connections) :
    ∃ c, get_connection_by_ports s src dst = some c := by
  have hs : (get_connection_by_ports s src dst).isSome = true := by
    simp only [get_connection_by_ports, List.find?_isSome]
    exact ⟨(src, dst), h, by simp⟩
  exact Option.isSome_iff_exists.mp hs

/-- C5: `connectAttr` on an ordered pair of ports that is already
connected raises the duplicate-connection error — in the state-passing
embedding `Except.error` returns no session, so no second edge is added —
while the first `connectAttr` on an unconnected pair succeeds and records
exactly that edge. -/
theorem connectAttr_duplicate_check (s : MockedSessionState)
    (src dst : MockedPort) :
    ((src, dst) ∈ s.connections →
      connectAttr s src dst = .error .duplicateConnection) ∧
    ((src, dst) ∉ s.connections →
      connectAttr s src dst =
        .ok { s with connections := s.connections ++ [(src, dst)] }) := by
  constructor
  · intro hmem
    obtain ⟨c, hc⟩ := get_connection_by_ports_isSome s src dst hmem
    simp [connectAttr, hc]
  · intro hmem
    have hn := (get_connection_by_ports_eq_none s src dst).mpr hmem
    simp [connectAttr, hn, create_connection]

/-- C5 (witness): in the one-connection sample session, reconnecting the
same pair errors; in the empty-connection sample session, connecting
records the edge. -/
theorem connectAttr_duplicate_check_witness :
    connectAttr sampleSession1 portA portB =
        .error .duplicateConnection ∧
      connectAttr sampleSession0 portA portB =
        .ok { sampleSession0 with
              connections := sampleSession0.connections ++ [(portA, portB)] } :=
  ⟨(connectAttr_duplicate_check sampleSession1 portA portB).1 (by decide),
   (connectAttr_duplicate_check sampleSession0 portA portB).2 (by decide)⟩

/-- C6: `disconnectAttr` on an ordered pair of ports with no existing
connection raises the missing-connection error; in the state-passing
embedding `Except.error` returns no session, so the connection graph is
unchanged. -/
theorem disconnectAttr_missing_connection (s : MockedSessionState)
    (src dst : MockedPort) :
    (src, dst) ∉ s.connections →
      disconnectAttr s src dst = .error .missingConnection := by
  intro hmem
  have hn := (get_connection_by_ports_eq_none s src dst).mpr hmem
  simp [disconnectAttr, hn]

/-- C6 (witness): disconnecting the never-connected sample pair errors. -/
theorem disconnectAttr_missing_connection_witness :
    disconnectAttr sampleSession0 portA portB =
      .error .missingConnection :=
  disconnectAttr_missing_connection sampleSession0 portA portB (by decide)

/-- C7: `addAttr` with neither a long nor a short name raises the
missing-required-flag error, whatever the session, objects and other
flags; the error is raised before any session access, and in the
state-passing embedding `Except.error` returns no session, so no port is
created. -/
theorem addAttr_requires_long_or_short_name (s : MockedSessionState)
    (objects : List String) (attributeType dataType : Option String)
    (defaultValue : MValue) (niceName : Option String) :
    addAttr s objects attributeType dataType defaultValue none niceName none =
      .error .missingAttributeName := by
  simp [addAttr, truthy]

/-- C8: `select` replaces the selection with exactly the stored nodes
whose name occurs in `names` (in store order), a node is selected iff it
is stored and its name is listed, and the selection held before the call
has no influence: sessions with equal node stores select equally. -/
theorem select_replaces_selection (s : MockedSessionState)
    (names : List String) :
    (select s names).selection =
        s.nodes.filter (fun n => names.contains n.name) ∧
      (∀ n, n ∈ (select s names).selection ↔
        n ∈ s.nodes ∧ names.contains n.name = true) ∧
      (∀ t : MockedSessionState, t.nodes = s.nodes →
        (select t names).selection = (select s names).selection) := by
  refine ⟨rfl, fun n => ?_, fun t ht => ?_⟩
  · simp [select, List.mem_filter]
  · simp [select, ht]

/-- C8 (witness): a sample session with a non-empty prior selection
selects the same nodes as the same session with an empty one. -/
theorem select_replaces_selection_witness :
    (select { sampleSession0 with selection := [nodeA] } ["a"]).selection =
      (select sampleSession0 ["a"]).selection :=
  (select_replaces_selection sampleSession0 ["a"]).2.2
    { sampleSession0 with selection := [nodeA] } rfl

/-- C10 (counterexample): on a session holding one node named `"a"`,
selecting `["a", "b"]` yields `[a]` under the `src/src` implementation but
`[a, a]` under the `src/python` one (its `_find_node` ignores its
argument, so the matched list is emitted once per requested name): the two
selections differ. -/
theorem select_python_differs_from_select :
    (select_python sampleSession0 ["a", "b"]).selection ≠
      (select sampleSession0 ["a", "b"]).selection := by decide

/-- C10 (amended): the `src/python` selection is the `src/src` selection
emitted once per element of `names` — so the two implementations agree on
membership (the same set of nodes), and agree outright whenever `names`
has at most one element, but differ in multiplicity in general. -/
theorem select_python_replicates_selection (s : MockedSessionState)
    (names : List String) :
    (select_python s names).selection =
        names.flatMap (fun _ => (select s names).selection) ∧
      (∀ n, n ∈ (select_python s names).selection ↔
        n ∈ (select s names).selection) := by
  refine ⟨rfl, fun n => ?_⟩
  have hsel : (select_python s names).selection =
      names.flatMap (fun _ => (select s names).selection) := rfl
  rw [hsel, List.mem_flatMap]
  constructor
  · rintro ⟨a, _, hn⟩
    exact hn
  · intro hn
    have hmem : n.name ∈ names := by
      have h2 := (List.mem_filter.mp hn).2
      simpa using h2
    exact ⟨n.name, hmem, hn⟩

/-- C10 (amended, witness): instantiation on the sample session, where
selecting `["a", "b"]` through the `src/python` implementation yields the
`src/src` selection twice over. -/
theorem select_python_replicates_selection_witness :
    (select_python sampleSession0 ["a", "b"]).selection =
      ["a", "b"].flatMap (fun _ => (select sampleSession0 ["a", "b"]).selection) :=
  (select_python_replicates_selection sampleSession0 ["a", "b"]).1

end MayaMock
